import Mathlib

/-!
Shallow embedding of `src/main.py` (Upstage + Qdrant vector-store service).

The service keeps an in-memory registry `VECTOR_STORES : Dict[str, dict]`
mapping a store id to its metadata (name, backing collection name, dimension,
distance metric, and a dict of ingested files).  Every HTTP handler reads or
mutates this registry and talks to two external dependencies: the Upstage
parse/embed HTTP API and the Qdrant vector database.

The embedding models:
  - Python dicts as insertion-ordered association lists (`findA`, `setA`,
    `eraseA` mirror `d.get`, `d[k] = v`, `d.pop`);
  - the Qdrant collection contents as a map from collection name to the list
    of points it holds, so that destructive recreation and upserts are
    observable;
  - every external call outcome as an explicit oracle argument (a `Bool`
    success flag, or an `Option` carrying the successful response), since
    network nondeterminism is outside the program;
  - each handler as a pure function returning the post-state together with
    `Except HTTPException response`, matching the code's `raise HTTPException`
    versus `return` structure.  A handler that raises after mutating the
    registry returns the mutated state on the error path, exactly as the
    Python code leaves the process-global dict mutated.
-/

namespace SolarVS

/-- Distance metrics of `qdrant_client.http.models.Distance`. -/
inductive Distance where
  | cosine
  | euclid
  | dot
  | manhattan
deriving DecidableEq, Repr

/-- One entry of a store's `files` dict: `{"filename": ..., "pages": ...}`. -/
structure FileRecord where
  filename : String
  pages : Nat
deriving DecidableEq, Repr

/-- Association-list lookup, mirroring Python `d.get(key)`. -/
def findA {β : Type} : List (String × β) → String → Option β
  | [], _ => none
  | (k, v) :: rest, key => if k = key then some v else findA rest key

/-- Association-list store, mirroring Python `d[key] = val` (update in place
when the key is present, append otherwise — dict insertion order). -/
def setA {β : Type} : List (String × β) → String → β → List (String × β)
  | [], key, val => [(key, val)]
  | (k, v) :: rest, key, val =>
    if k = key then (k, val) :: rest else (k, v) :: setA rest key val

/-- Association-list removal, mirroring Python `d.pop(key, None)`. -/
def eraseA {β : Type} : List (String × β) → String → List (String × β)
  | [], _ => []
  | (k, v) :: rest, key => if k = key then rest else (k, v) :: eraseA rest key

/-- The per-store metadata dict stored in `VECTOR_STORES`. -/
structure StoreMeta where
  name : String
  collection : String
  dimension : Nat
  distance : Distance
  files : List (String × FileRecord)
deriving DecidableEq, Repr

/-- The process-global `VECTOR_STORES` dict. -/
abbrev Registry := List (String × StoreMeta)

/-- One Qdrant point: `PointStruct(id, vector, payload={"file": ..., "page": ...})`. -/
structure Point where
  pid : String
  vector : List Int
  file : String
  page : Nat
deriving DecidableEq, Repr

/-- The observable contents of the Qdrant database: collection name to the
points it currently holds. -/
abbrev Backend := List (String × List Point)

/-- Points currently held by a collection (empty when the collection is absent). -/
def getColl (b : Backend) (c : String) : List Point := (findA b c).getD []

/-- Effect of a successful `qdrant.upsert(collection_name=c, points=pts)`. -/
def upsertColl (b : Backend) (c : String) (pts : List Point) : Backend :=
  setA b c (getColl b c ++ pts)

/-- Effect of a successful `qdrant.recreate_collection(collection_name=c, ...)`:
the collection is recreated empty, discarding previously stored vectors. -/
def recreateColl (b : Backend) (c : String) : Backend := setA b c []

/-- Whole-system state: the registry plus the vector database contents. -/
structure SysState where
  reg : Registry
  backend : Backend
deriving DecidableEq, Repr

/-- `raise HTTPException(status_code=..., detail=...)`. -/
structure HTTPException where
  status : Nat
  detail : String
deriving DecidableEq, Repr

/-- Body of `POST /vector_stores`. -/
structure CreateVectorStoreRequest where
  name : String
  dimension : Nat
  distance : Distance
deriving DecidableEq, Repr

/-- Body of `PATCH /vector_stores/{id}`. -/
structure UpdateVectorStoreRequest where
  name : Option String
  distance : Option Distance
deriving DecidableEq, Repr

/-- Body of `POST /vector_stores/{id}/query`. -/
structure QueryRequest where
  query : String
  top_k : Nat
deriving DecidableEq, Repr

/-- Response of `create_vector_store`: `{"id": store_id, "name": req.name}`. -/
structure CreateResp where
  id : String
  name : String
deriving DecidableEq, Repr

/-- Response of `get_vector_store` and `update_vector_store`:
`{"id": store_id, **meta}`. -/
structure StoreResp where
  id : String
  meta : StoreMeta
deriving DecidableEq, Repr

/-- Response of `upload_file`: `{"file_id": file_id, "pages": len(pages)}`. -/
structure UploadResp where
  file_id : String
  pages : Nat
deriving DecidableEq, Repr

/-- Response of the delete handlers: `{"status": "deleted"}`. -/
structure DeleteResp where
  status : String
deriving DecidableEq, Repr

/-- One Qdrant search hit as serialized by `query_vectors`. -/
structure Hit where
  hid : String
  score : Int
  payloadFile : String
  payloadPage : Nat
deriving DecidableEq, Repr

/-- Python truthiness of `req.name` (an optional string): `None` and `""` are
falsy, every other string is truthy. -/
def truthyStr : Option String → Bool
  | none => false
  | some s => s ≠ ""

/-- `POST /vector_stores`.  `storeId` stands for the generated
`str(uuid.uuid4())`; `recreateOk` and `indexOk` are the outcomes of the
`recreate_collection` and `create_payload_index` calls.  The registry entry is
written only after both Qdrant calls succeed. -/
def create_vector_store (s : SysState) (req : CreateVectorStoreRequest)
    (storeId : String) (recreateOk indexOk : Bool) :
    SysState × Except HTTPException CreateResp :=
  let collName := "vs_" ++ storeId
  if recreateOk then
    let backend1 := recreateColl s.backend collName
    if indexOk then
      ({ reg := setA s.reg storeId
            { name := req.name, collection := collName, dimension := req.dimension,
              distance := req.distance, files := [] },
         backend := backend1 },
       Except.ok { id := storeId, name := req.name })
    else
      ({ reg := s.reg, backend := backend1 },
       Except.error ⟨500, "Failed to create vector store"⟩)
  else (s, Except.error ⟨500, "Failed to create vector store"⟩)

/-- `GET /vector_stores/{store_id}` (read-only, takes just the registry). -/
def get_vector_store (reg : Registry) (storeId : String) :
    Except HTTPException StoreResp :=
  match findA reg storeId with
  | none => Except.error ⟨404, "Vector store not found"⟩
  | some meta => Except.ok ⟨storeId, meta⟩

/-- `PATCH /vector_stores/{store_id}`.  The rename is applied to the live dict
before any Qdrant call; a distance change recreates the collection (destroying
its points) and re-creates the payload index before recording the new
distance. -/
def update_vector_store (s : SysState) (storeId : String)
    (req : UpdateVectorStoreRequest) (recreateOk indexOk : Bool) :
    SysState × Except HTTPException StoreResp :=
  match findA s.reg storeId with
  | none => (s, Except.error ⟨404, "Vector store not found"⟩)
  | some meta =>
    let meta1 := if truthyStr req.name then
        { meta with name := req.name.getD meta.name } else meta
    let reg1 := if truthyStr req.name then setA s.reg storeId meta1 else s.reg
    match req.distance with
    | some d =>
      if d ≠ meta1.distance then
        if recreateOk then
          let backend1 := recreateColl s.backend meta1.collection
          if indexOk then
            let meta2 := { meta1 with distance := d }
            ({ reg := setA reg1 storeId meta2, backend := backend1 },
             Except.ok ⟨storeId, meta2⟩)
          else
            ({ reg := reg1, backend := backend1 },
             Except.error ⟨500, "Failed to update vector store"⟩)
        else
          ({ reg := reg1, backend := s.backend },
           Except.error ⟨500, "Failed to update vector store"⟩)
      else ({ reg := reg1, backend := s.backend }, Except.ok ⟨storeId, meta1⟩)
    | none => ({ reg := reg1, backend := s.backend }, Except.ok ⟨storeId, meta1⟩)

/-- `DELETE /vector_stores/{store_id}`.  Note the code pops the registry entry
first (`VECTOR_STORES.pop(store_id, None)`) and only then attempts
`qdrant.delete_collection`; `dropOk` is that call's outcome. -/
def delete_vector_store (s : SysState) (storeId : String) (dropOk : Bool) :
    SysState × Except HTTPException DeleteResp :=
  match findA s.reg storeId with
  | none => (s, Except.error ⟨404, "Vector store not found"⟩)
  | some meta =>
    let reg1 := eraseA s.reg storeId
    if dropOk then
      ({ reg := reg1, backend := eraseA s.backend meta.collection },
       Except.ok ⟨"deleted"⟩)
    else
      ({ reg := reg1, backend := s.backend },
       Except.error ⟨500, "Failed to delete vector store"⟩)

/-- One structural element of the parser response: `el.get("page", 1)` and
`el.get("content", {}).get("html", "")` are the only fields read. -/
structure Element where
  page : Nat
  html : String
deriving DecidableEq, Repr

/-- The fields of the document-parse JSON response that `upload_file` reads.
`elements = none` covers both a missing `elements` key and a non-list value
(the code guards with `isinstance(elements, list)`); `contentHtml` and
`contentText` are `json_resp["content"]["html"]` and `...["text"]`. -/
structure ParseResponse where
  elements : Option (List Element)
  contentHtml : Option String
  contentText : Option String
deriving DecidableEq, Repr

/-- Python `content_obj.get("html") or content_obj.get("text") or ""`
(`None` and `""` are falsy). -/
def fallbackHtml (pr : ParseResponse) : String :=
  match pr.contentHtml with
  | some s =>
    if s ≠ "" then s
    else match pr.contentText with
      | some t => if t ≠ "" then t else ""
      | none => ""
  | none =>
    match pr.contentText with
    | some t => if t ≠ "" then t else ""
    | none => ""

/-- The whole-document fallback: `pages = [html] if html else []`. -/
def fallbackPages (pr : ParseResponse) : List String :=
  if fallbackHtml pr = "" then [] else [fallbackHtml pr]

/-- Page numbers that receive at least one entry in `pages_map` (an element is
appended only when its html is truthy), deduplicated like dict keys. -/
def pageKeys (els : List Element) : List Nat :=
  ((els.filter (fun e => e.html ≠ "")).map (fun e => e.page)).dedup

/-- `"\n".join(pages_map[p])`: the truthy htmls of the elements on page `p`,
in element order, joined by newlines. -/
def renderPage (els : List Element) (p : Nat) : String :=
  String.intercalate "\n"
    ((els.filter (fun e => e.page = p ∧ e.html ≠ "")).map (fun e => e.html))

/-- Normalization of the parser response into page texts (`upload_file`
lines 186-199): a non-empty `elements` list is grouped by page number and
rendered in ascending page order (`sorted(pages_map)`); otherwise the
whole-document fallback is used. -/
def normalizePages (pr : ParseResponse) : List String :=
  match pr.elements with
  | some els =>
    if els = [] then fallbackPages pr
    else (List.insertionSort (· ≤ ·) (pageKeys els)).map (renderPage els)
  | none => fallbackPages pr

/-- The per-page embedding loop (`upload_file` lines 206-225): page `idx` with
text `t` contributes a point exactly when `emb idx t` succeeds; a failed page
is skipped (`continue`).  `pids idx` stands for the point's generated uuid. -/
def buildPoints (emb : Nat → String → Option (List Int)) (pids : Nat → String)
    (fname : String) (pages : List String) : List Point :=
  pages.enum.filterMap fun it =>
    (emb it.1 it.2).map fun v => { pid := pids it.1, vector := v, file := fname, page := it.1 }

/-- Number of parsed pages whose embedding call failed. -/
def failedCount (emb : Nat → String → Option (List Int)) (pages : List String) : Nat :=
  (pages.enum.filter (fun it => (emb it.1 it.2).isNone)).length

/-- `POST /vector_stores/{store_id}/files`.  `readOk` is the outcome of
`file.file.read()`; `parsed` is the parse-call outcome (`none` for a transport
error or non-2xx status); `emb` gives each page-embedding outcome; `fileId`
stands for the generated file uuid; `upsertOk` is the batch upsert outcome.
The `files` entry is written only after a successful upsert, and it records
`len(pages)` — the parsed page count. -/
def upload_file (s : SysState) (storeId fname : String) (readOk : Bool)
    (parsed : Option ParseResponse) (emb : Nat → String → Option (List Int))
    (pids : Nat → String) (fileId : String) (upsertOk : Bool) :
    SysState × Except HTTPException UploadResp :=
  match findA s.reg storeId with
  | none => (s, Except.error ⟨404, "Vector store not found"⟩)
  | some meta =>
    if readOk then
      match parsed with
      | none => (s, Except.error ⟨500, "Document parsing failed"⟩)
      | some pr =>
        let pages := normalizePages pr
        if pages = [] then (s, Except.error ⟨500, "Document parsing failed"⟩)
        else
          let points := buildPoints emb pids fname pages
          if points = [] then (s, Except.error ⟨500, "No embeddings generated"⟩)
          else if upsertOk then
            let meta1 := { meta with
              files := setA meta.files fileId ⟨fname, pages.length⟩ }
            ({ reg := setA s.reg storeId meta1,
               backend := upsertColl s.backend meta.collection points },
             Except.ok ⟨fileId, pages.length⟩)
          else (s, Except.error ⟨500, "Failed to store embeddings"⟩)
    else (s, Except.error ⟨400, "Invalid file upload"⟩)

/-- `POST /vector_stores/{store_id}/query`.  `qvec` is the query-embedding
outcome and `searchResult` the outcome of `qdrant.search` on the embedded
vector and `top_k`.  The handler never writes to the registry. -/
def query_vectors (s : SysState) (storeId : String) (req : QueryRequest)
    (qvec : Option (List Int))
    (searchResult : List Int → Nat → Option (List Hit)) :
    SysState × Except HTTPException (List Hit) :=
  match findA s.reg storeId with
  | none => (s, Except.error ⟨404, "Vector store not found"⟩)
  | some _meta =>
    match qvec with
    | none => (s, Except.error ⟨500, "Failed to embed query"⟩)
    | some v =>
      match searchResult v req.top_k with
      | none => (s, Except.error ⟨500, "Search operation failed"⟩)
      | some hits => (s, Except.ok hits)

/-- A concrete store metadata fixture. -/
def Meta0 : StoreMeta :=
  { name := "st", collection := "vs_s1", dimension := 4,
    distance := Distance.cosine, files := [] }

/-- A concrete system state holding one store `s1` with an empty collection. -/
def S0 : SysState := { reg := [("s1", Meta0)], backend := [("vs_s1", [])] }

/-- A parse response with two one-element pages (page numbers 1 and 2). -/
def PR0 : ParseResponse :=
  { elements := some [{ page := 1, html := "a" }, { page := 2, html := "b" }],
    contentHtml := none, contentText := none }

/-- A parse response with nothing usable: normalization yields zero pages. -/
def PRempty : ParseResponse :=
  { elements := none, contentHtml := none, contentText := none }

/-- Embedding oracle that succeeds on page 0 and fails on every other page. -/
def embOne : Nat → String → Option (List Int) :=
  fun i _ => if i = 0 then some [1] else none

/-- Embedding oracle that fails on every page. -/
def embNone : Nat → String → Option (List Int) := fun _ _ => none

/-- Embedding oracle that succeeds on every page. -/
def embAll : Nat → String → Option (List Int) := fun _ _ => some [1]

/-- A fixed point-id supply. -/
def pidF : Nat → String := fun i => "p" ++ toString i

end SolarVS

deriving instance DecidableEq for Except

namespace SolarVS

theorem findA_setA_self {β : Type} (l : List (String × β)) (k : String) (v : β) :
    findA (setA l k v) k = some v := by
  induction l with
  | nil => simp [setA, findA]
  | cons hd tl ih =>
    obtain ⟨k0, v0⟩ := hd
    by_cases h : k0 = k
    · simp [setA, findA, h]
    · simp [setA, findA, h, ih]

theorem findA_eq_none_of_not_mem {β : Type} (l : List (String × β)) (k : String)
    (h : k ∉ l.map Prod.fst) : findA l k = none := by
  induction l with
  | nil => rfl
  | cons hd tl ih =>
    obtain ⟨k0, v0⟩ := hd
    simp only [List.map_cons, List.mem_cons] at h
    push_neg at h
    rw [findA, if_neg (fun hh => h.1 hh.symm)]
    exact ih h.2

theorem findA_eraseA_self {β : Type} (l : List (String × β)) (k : String)
    (hnd : (l.map Prod.fst).Nodup) : findA (eraseA l k) k = none := by
  induction l with
  | nil => rfl
  | cons hd tl ih =>
    obtain ⟨k0, v0⟩ := hd
    simp only [List.map_cons, List.nodup_cons] at hnd
    by_cases h : k0 = k
    · subst h
      rw [eraseA, if_pos rfl]
      exact findA_eq_none_of_not_mem _ _ hnd.1
    · rw [eraseA, if_neg h, findA, if_neg h]
      exact ih hnd.2

theorem getColl_upsertColl (b : Backend) (c : String) (pts : List Point) :
    getColl (upsertColl b c pts) c = getColl b c ++ pts := by
  unfold upsertColl getColl
  rw [findA_setA_self]
  rfl

theorem length_filterMap_add_isNone {α β : Type} (l : List α) (f : α → Option β) :
    (l.filterMap f).length + (l.filter (fun a => (f a).isNone)).length = l.length := by
  induction l with
  | nil => rfl
  | cons a tl ih =>
    cases h : f a with
    | none =>
      simp only [List.filterMap_cons, h, List.filter_cons, Option.isNone_none,
        if_pos, List.length_cons]
      omega
    | some b =>
      simp only [List.filterMap_cons, h, List.filter_cons, Option.isNone_some,
        List.length_cons]
      simp only [Bool.false_eq_true, if_false]
      omega

theorem buildPoints_length_add (emb : Nat → String → Option (List Int))
    (pids : Nat → String) (fname : String) (pages : List String) :
    (buildPoints emb pids fname pages).length + failedCount emb pages = pages.length := by
  have hp : (fun it : Nat × String =>
        ((emb it.1 it.2).map (fun v =>
          ({ pid := pids it.1, vector := v, file := fname, page := it.1 } : Point))).isNone)
      = (fun it : Nat × String => (emb it.1 it.2).isNone) := by
    funext it
    cases emb it.1 it.2 <;> rfl
  have h := length_filterMap_add_isNone pages.enum (fun it =>
    (emb it.1 it.2).map (fun v =>
      ({ pid := pids it.1, vector := v, file := fname, page := it.1 } : Point)))
  rw [hp, List.enum_length] at h
  exact h

theorem buildPoints_eq_nil_iff (emb : Nat → String → Option (List Int))
    (pids : Nat → String) (fname : String) (pages : List String) :
    buildPoints emb pids fname pages = [] ↔ ∀ it ∈ pages.enum, emb it.1 it.2 = none := by
  unfold buildPoints
  rw [List.filterMap_eq_nil_iff]
  constructor
  · intro h it hit
    exact Option.map_eq_none'.1 (h it hit)
  · intro h it hit
    rw [h it hit]
    rfl

theorem buildPoints_file (emb : Nat → String → Option (List Int))
    (pids : Nat → String) (fname : String) (pages : List String) :
    ∀ p ∈ buildPoints emb pids fname pages, p.file = fname := by
  intro p hp
  unfold buildPoints at hp
  rw [List.mem_filterMap] at hp
  obtain ⟨it, _, heq⟩ := hp
  cases h : emb it.1 it.2 with
  | none => rw [h] at heq; cases heq
  | some v =>
    rw [h] at heq
    cases heq
    rfl

theorem upload_file_run_parse_empty (s : SysState) (storeId fname : String)
    (meta : StoreMeta) (pr : ParseResponse) (emb : Nat → String → Option (List Int))
    (pids : Nat → String) (fileId : String) (upsertOk : Bool)
    (hfind : findA s.reg storeId = some meta)
    (hpages : normalizePages pr = []) :
    upload_file s storeId fname true (some pr) emb pids fileId upsertOk
      = (s, Except.error ⟨500, "Document parsing failed"⟩) := by
  unfold upload_file
  rw [hfind]
  simp [hpages]

theorem upload_file_run_noembed (s : SysState) (storeId fname : String)
    (meta : StoreMeta) (pr : ParseResponse) (emb : Nat → String → Option (List Int))
    (pids : Nat → String) (fileId : String) (upsertOk : Bool)
    (hfind : findA s.reg storeId = some meta)
    (hpages : normalizePages pr ≠ [])
    (hall : buildPoints emb pids fname (normalizePages pr) = []) :
    upload_file s storeId fname true (some pr) emb pids fileId upsertOk
      = (s, Except.error ⟨500, "No embeddings generated"⟩) := by
  unfold upload_file
  rw [hfind]
  simp [hpages, hall]

theorem upload_file_run_upsert_fail (s : SysState) (storeId fname : String)
    (meta : StoreMeta) (pr : ParseResponse) (emb : Nat → String → Option (List Int))
    (pids : Nat → String) (fileId : String)
    (hfind : findA s.reg storeId = some meta)
    (hpages : normalizePages pr ≠ [])
    (hpts : buildPoints emb pids fname (normalizePages pr) ≠ []) :
    upload_file s storeId fname true (some pr) emb pids fileId false
      = (s, Except.error ⟨500, "Failed to store embeddings"⟩) := by
  unfold upload_file
  rw [hfind]
  simp [hpages, hpts]

theorem upload_file_run_ok (s : SysState) (storeId fname : String) (meta : StoreMeta)
    (pr : ParseResponse) (emb : Nat → String → Option (List Int)) (pids : Nat → String)
    (fileId : String)
    (hfind : findA s.reg storeId = some meta)
    (hpages : normalizePages pr ≠ [])
    (hpts : buildPoints emb pids fname (normalizePages pr) ≠ []) :
    upload_file s storeId fname true (some pr) emb pids fileId true
      = ({ reg := setA s.reg storeId
             { meta with files := setA meta.files fileId ⟨fname, (normalizePages pr).length⟩ },
           backend := upsertColl s.backend meta.collection
             (buildPoints emb pids fname (normalizePages pr)) },
         Except.ok ⟨fileId, (normalizePages pr).length⟩) := by
  unfold upload_file
  rw [hfind]
  simp [hpages, hpts]

/-- C2 counterexample: store `s1` exists, its collection drop fails, and after
the failed delete the registry entry is gone — refuting the claim that the
entry is not removed on drop failure (`pop` runs before `delete_collection`). -/
theorem c2_cex :
    findA S0.reg "s1" = some Meta0 ∧
    (delete_vector_store S0 "s1" false).2
        = Except.error ⟨500, "Failed to delete vector store"⟩ ∧
    findA (delete_vector_store S0 "s1" false).1.reg "s1" = none := by
  decide

/-- C2 (amended): for every existing store, if the collection drop fails the
delete operation fails with HTTP 500 (BackingStoreError), but the registry
entry has already been popped, so the store is absent from the registry
afterwards; the backing collection itself is not dropped. -/
theorem c2_amended (s : SysState) (storeId : String) (meta : StoreMeta)
    (hnd : (s.reg.map Prod.fst).Nodup) (hfind : findA s.reg storeId = some meta) :
    (delete_vector_store s storeId false).2
        = Except.error ⟨500, "Failed to delete vector store"⟩ ∧
    findA (delete_vector_store s storeId false).1.reg storeId = none ∧
    (delete_vector_store s storeId false).1.backend = s.backend := by
  unfold delete_vector_store
  rw [hfind]
  exact ⟨rfl, findA_eraseA_self _ _ hnd, rfl⟩

/-- C2 witness: the amended delete-failure behavior on the concrete state `S0`. -/
theorem c2_witness :
    (delete_vector_store S0 "s1" false).2
        = Except.error ⟨500, "Failed to delete vector store"⟩ ∧
    findA (delete_vector_store S0 "s1" false).1.reg "s1" = none ∧
    (delete_vector_store S0 "s1" false).1.backend = S0.backend :=
  c2_amended S0 "s1" Meta0 (by decide) (by decide)

/-- C6: if the backing-collection creation or the provenance-index creation
fails, `create_vector_store` fails with HTTP 500 (BackingStoreError) and no
entry is recorded in the registry. -/
theorem c6_create_failure (s : SysState) (req : CreateVectorStoreRequest)
    (storeId : String) (recreateOk indexOk : Bool)
    (hfail : recreateOk = false ∨ indexOk = false) :
    (create_vector_store s req storeId recreateOk indexOk).2
        = Except.error ⟨500, "Failed to create vector store"⟩ ∧
    (create_vector_store s req storeId recreateOk indexOk).1.reg = s.reg := by
  unfold create_vector_store
  rcases hfail with h | h <;> subst h
  · simp
  · cases recreateOk <;> simp

/-- C6 witness: a failed index creation on the concrete state `S0` records
nothing. -/
theorem c6_witness :
    (create_vector_store S0 ⟨"new", 4, Distance.cosine⟩ "s2" true false).2
        = Except.error ⟨500, "Failed to create vector store"⟩ ∧
    (create_vector_store S0 ⟨"new", 4, Distance.cosine⟩ "s2" true false).1.reg = S0.reg :=
  c6_create_failure S0 ⟨"new", 4, Distance.cosine⟩ "s2" true false (Or.inr rfl)

/-- C7: a successful create followed by get on the returned id yields metadata
whose name, dimension and distance are exactly the requested ones, and the
freshly generated id (modelled as a uuid draw assumed to miss every existing
key) is distinct from every id already present in the registry. -/
theorem c7_create_get (s : SysState) (req : CreateVectorStoreRequest) (storeId : String)
    (hfresh : findA s.reg storeId = none) :
    (create_vector_store s req storeId true true).2 = Except.ok ⟨storeId, req.name⟩ ∧
    (∃ m, get_vector_store (create_vector_store s req storeId true true).1.reg storeId
            = Except.ok ⟨storeId, m⟩
        ∧ m.name = req.name ∧ m.dimension = req.dimension ∧ m.distance = req.distance) ∧
    (∀ sid, (findA s.reg sid).isSome → storeId ≠ sid) := by
  refine ⟨rfl, ⟨⟨req.name, "vs_" ++ storeId, req.dimension, req.distance, []⟩, ?_, rfl, rfl, rfl⟩, ?_⟩
  · unfold create_vector_store get_vector_store
    simp only [if_pos]
    rw [findA_setA_self]
  · intro sid h heq
    subst heq
    rw [hfresh] at h
    simp at h

/-- C7 witness: create-then-get on the concrete state `S0` with a fresh id. -/
theorem c7_witness :
    (create_vector_store S0 ⟨"new", 7, Distance.euclid⟩ "s2" true true).2
        = Except.ok ⟨"s2", "new"⟩ ∧
    (∃ m, get_vector_store (create_vector_store S0 ⟨"new", 7, Distance.euclid⟩ "s2" true true).1.reg "s2"
            = Except.ok ⟨"s2", m⟩
        ∧ m.name = "new" ∧ m.dimension = 7 ∧ m.distance = Distance.euclid) ∧
    (∀ sid, (findA S0.reg sid).isSome → "s2" ≠ sid) :=
  c7_create_get S0 ⟨"new", 7, Distance.euclid⟩ "s2" (by decide)

/-- C1 counterexample: parsing yields n = 2 pages, embedding fails for k = 1
of them, yet `upload_file` returns page count 2 (not n − k = 1) and records a
FileRecord with pages = 2, the parsed count, while only 1 point is upserted. -/
theorem c1_cex :
    (upload_file S0 "s1" "doc.pdf" true (some PR0) embOne pidF "f1" true).2
        = Except.ok ⟨"f1", 2⟩ ∧
    (upload_file S0 "s1" "doc.pdf" true (some PR0) embOne pidF "f1" true).2
        ≠ Except.ok ⟨"f1", 1⟩ ∧
    (normalizePages PR0).length = 2 ∧
    failedCount embOne (normalizePages PR0) = 1 ∧
    (buildPoints embOne pidF "doc.pdf" (normalizePages PR0)).length = 1 ∧
    ((findA (upload_file S0 "s1" "doc.pdf" true (some PR0) embOne pidF "f1" true).1.reg "s1").bind
        (fun m => findA m.files "f1")) = some ⟨"doc.pdf", 2⟩ := by
  decide

/-- C1 (amended): if parsing yields n pages and embedding fails for exactly k
of them (k < n) and the upsert succeeds, the ingest returns page count n — the
number of pages PARSED — and records a FileRecord whose pages field is n,
while exactly n − k points are actually upserted for the file. -/
theorem c1_amended (s : SysState) (storeId fname : String) (meta : StoreMeta)
    (pr : ParseResponse) (emb : Nat → String → Option (List Int))
    (pids : Nat → String) (fileId : String)
    (hfind : findA s.reg storeId = some meta)
    (hpages : normalizePages pr ≠ [])
    (hpts : buildPoints emb pids fname (normalizePages pr) ≠ []) :
    (upload_file s storeId fname true (some pr) emb pids fileId true).2
        = Except.ok ⟨fileId, (normalizePages pr).length⟩ ∧
    (∃ m, findA (upload_file s storeId fname true (some pr) emb pids fileId true).1.reg storeId
            = some m
        ∧ findA m.files fileId = some ⟨fname, (normalizePages pr).length⟩) ∧
    getColl (upload_file s storeId fname true (some pr) emb pids fileId true).1.backend
        meta.collection
      = getColl s.backend meta.collection ++ buildPoints emb pids fname (normalizePages pr) ∧
    (buildPoints emb pids fname (normalizePages pr)).length
        = (normalizePages pr).length - failedCount emb (normalizePages pr) ∧
    failedCount emb (normalizePages pr) < (normalizePages pr).length ∧
    (∀ p ∈ buildPoints emb pids fname (normalizePages pr), p.file = fname) := by
  rw [upload_file_run_ok s storeId fname meta pr emb pids fileId hfind hpages hpts]
  have hadd := buildPoints_length_add emb pids fname (normalizePages pr)
  have hlen : (buildPoints emb pids fname (normalizePages pr)).length ≠ 0 :=
    fun h0 => hpts (List.length_eq_zero.mp h0)
  refine ⟨rfl, ⟨_, findA_setA_self _ _ _, findA_setA_self _ _ _⟩,
    getColl_upsertColl _ _ _, ?_, ?_, buildPoints_file _ _ _ _⟩
  · omega
  · omega

/-- C1 witness: the amended partial-failure accounting at the concrete input
with n = 2 parsed pages and k = 1 failed embedding. -/
theorem c1_witness :
    (upload_file S0 "s1" "doc.pdf" true (some PR0) embOne pidF "f1" true).2
        = Except.ok ⟨"f1", (normalizePages PR0).length⟩ ∧
    (∃ m, findA (upload_file S0 "s1" "doc.pdf" true (some PR0) embOne pidF "f1" true).1.reg "s1"
            = some m
        ∧ findA m.files "f1" = some ⟨"doc.pdf", (normalizePages PR0).length⟩) ∧
    getColl (upload_file S0 "s1" "doc.pdf" true (some PR0) embOne pidF "f1" true).1.backend
        Meta0.collection
      = getColl S0.backend Meta0.collection ++ buildPoints embOne pidF "doc.pdf" (normalizePages PR0) ∧
    (buildPoints embOne pidF "doc.pdf" (normalizePages PR0)).length
        = (normalizePages PR0).length - failedCount embOne (normalizePages PR0) ∧
    failedCount embOne (normalizePages PR0) < (normalizePages PR0).length ∧
    (∀ p ∈ buildPoints embOne pidF "doc.pdf" (normalizePages PR0), p.file = "doc.pdf") :=
  c1_amended S0 "s1" "doc.pdf" Meta0 PR0 embOne pidF "f1" (by decide) (by decide) (by decide)

/-- C3: if the batch upsert fails, ingestion fails with HTTP 500
(BackingStoreError) and the whole state — in particular the StoreRegistry —
is left unchanged, so no FileRecord is recorded at all. -/
theorem c3_upsert_failure_atomic (s : SysState) (storeId fname : String)
    (meta : StoreMeta) (pr : ParseResponse) (emb : Nat → String → Option (List Int))
    (pids : Nat → String) (fileId : String)
    (hfind : findA s.reg storeId = some meta)
    (hpages : normalizePages pr ≠ [])
    (hpts : buildPoints emb pids fname (normalizePages pr) ≠ []) :
    (upload_file s storeId fname true (some pr) emb pids fileId false).2
        = Except.error ⟨500, "Failed to store embeddings"⟩ ∧
    (upload_file s storeId fname true (some pr) emb pids fileId false).1 = s ∧
    (upload_file s storeId fname true (some pr) emb pids fileId false).1.reg = s.reg := by
  rw [upload_file_run_upsert_fail s storeId fname meta pr emb pids fileId hfind hpages hpts]
  exact ⟨rfl, rfl, rfl⟩

/-- C3 witness: a failed upsert on the concrete input records nothing. -/
theorem c3_witness :
    (upload_file S0 "s1" "doc.pdf" true (some PR0) embOne pidF "f1" false).2
        = Except.error ⟨500, "Failed to store embeddings"⟩ ∧
    (upload_file S0 "s1" "doc.pdf" true (some PR0) embOne pidF "f1" false).1 = S0 ∧
    (upload_file S0 "s1" "doc.pdf" true (some PR0) embOne pidF "f1" false).1.reg = S0.reg :=
  c3_upsert_failure_atomic S0 "s1" "doc.pdf" Meta0 PR0 embOne pidF "f1"
    (by decide) (by decide) (by decide)

/-- C4: a single page's embedding failure does not abort the ingestion; the
operation fails with HTTP 500 "No embeddings generated" (EmbeddingError) if
and only if every page's embedding fails, in which case the state is untouched
(nothing recorded, no upsert); and if at least one page succeeds and the
upsert succeeds the ingestion completes. -/
theorem c4_per_page_policy (s : SysState) (storeId fname : String) (meta : StoreMeta)
    (pr : ParseResponse) (emb : Nat → String → Option (List Int)) (pids : Nat → String)
    (fileId : String) (upsertOk : Bool)
    (hfind : findA s.reg storeId = some meta)
    (hpages : normalizePages pr ≠ []) :
    ((upload_file s storeId fname true (some pr) emb pids fileId upsertOk).2
        = Except.error ⟨500, "No embeddings generated"⟩
      ↔ ∀ it ∈ (normalizePages pr).enum, emb it.1 it.2 = none) ∧
    ((∀ it ∈ (normalizePages pr).enum, emb it.1 it.2 = none) →
      (upload_file s storeId fname true (some pr) emb pids fileId upsertOk).1 = s) ∧
    ((∃ it ∈ (normalizePages pr).enum, emb it.1 it.2 ≠ none) → upsertOk = true →
      (upload_file s storeId fname true (some pr) emb pids fileId upsertOk).2
        = Except.ok ⟨fileId, (normalizePages pr).length⟩) := by
  by_cases hall : buildPoints emb pids fname (normalizePages pr) = []
  · rw [upload_file_run_noembed s storeId fname meta pr emb pids fileId upsertOk hfind hpages hall]
    have hnone := (buildPoints_eq_nil_iff emb pids fname (normalizePages pr)).mp hall
    refine ⟨⟨fun _ => hnone, fun _ => rfl⟩, fun _ => rfl, ?_⟩
    rintro ⟨it, hit, hne⟩ _
    exact absurd (hnone it hit) hne
  · have hnot : ¬ ∀ it ∈ (normalizePages pr).enum, emb it.1 it.2 = none :=
      fun h => hall ((buildPoints_eq_nil_iff emb pids fname (normalizePages pr)).mpr h)
    cases upsertOk with
    | false =>
      rw [upload_file_run_upsert_fail s storeId fname meta pr emb pids fileId hfind hpages hall]
      have hne2 : (Except.error ⟨500, "Failed to store embeddings"⟩
            : Except HTTPException UploadResp)
          ≠ Except.error ⟨500, "No embeddings generated"⟩ := by decide
      refine ⟨⟨fun h => absurd h hne2, fun h => absurd h hnot⟩,
        fun h => absurd h hnot, fun _ h => absurd h (by decide)⟩
    | true =>
      rw [upload_file_run_ok s storeId fname meta pr emb pids fileId hfind hpages hall]
      exact ⟨⟨fun h => Except.noConfusion h, fun h => absurd h hnot⟩,
        fun h => absurd h hnot, fun _ _ => rfl⟩

/-- C4 witness: on the concrete input, page 1 fails, ingestion still succeeds,
and the EmbeddingError characterization holds. -/
theorem c4_witness :
    (((upload_file S0 "s1" "doc.pdf" true (some PR0) embOne pidF "f1" true).2
        = Except.error ⟨500, "No embeddings generated"⟩)
      ↔ ∀ it ∈ (normalizePages PR0).enum, embOne it.1 it.2 = none) ∧
    ((∀ it ∈ (normalizePages PR0).enum, embOne it.1 it.2 = none) →
      (upload_file S0 "s1" "doc.pdf" true (some PR0) embOne pidF "f1" true).1 = S0) ∧
    ((∃ it ∈ (normalizePages PR0).enum, embOne it.1 it.2 ≠ none) → true = true →
      (upload_file S0 "s1" "doc.pdf" true (some PR0) embOne pidF "f1" true).2
        = Except.ok ⟨"f1", (normalizePages PR0).length⟩) :=
  c4_per_page_policy S0 "s1" "doc.pdf" Meta0 PR0 embOne pidF "f1" true
    (by decide) (by decide)

/-- C5: normalization groups a non-empty element list by page number into
newline-joined page texts, ordered by ascending page number (a sorted,
duplicate-free key list whose members are exactly the pages carrying a
non-empty rendered html); otherwise it falls back to the single top-level
content page; and if it yields zero pages the ingestion fails with HTTP 500
"Document parsing failed" (ParseError) recording nothing. -/
theorem c5_normalization (pr : ParseResponse) :
    (∀ els, pr.elements = some els → els ≠ [] →
      ∃ ps : List Nat, List.Sorted (· ≤ ·) ps ∧ ps.Nodup ∧
        (∀ p, p ∈ ps ↔ ∃ el ∈ els, el.page = p ∧ el.html ≠ "") ∧
        normalizePages pr = ps.map (renderPage els)) ∧
    ((pr.elements = none ∨ pr.elements = some []) → normalizePages pr = fallbackPages pr) ∧
    (∀ (s : SysState) (storeId fname : String) (meta : StoreMeta)
        (emb : Nat → String → Option (List Int)) (pids : Nat → String)
        (fileId : String) (upsertOk : Bool),
      findA s.reg storeId = some meta → normalizePages pr = [] →
      upload_file s storeId fname true (some pr) emb pids fileId upsertOk
        = (s, Except.error ⟨500, "Document parsing failed"⟩)) := by
  refine ⟨?_, ?_, ?_⟩
  · intro els hels hne
    refine ⟨List.insertionSort (· ≤ ·) (pageKeys els),
      List.sorted_insertionSort _ _, ?_, ?_, ?_⟩
    · exact ((List.perm_insertionSort _ _).nodup_iff).mpr (List.nodup_dedup _)
    · intro p
      rw [(List.perm_insertionSort _ _).mem_iff]
      unfold pageKeys
      rw [List.mem_dedup, List.mem_map]
      constructor
      · rintro ⟨el, hel, rfl⟩
        rw [List.mem_filter] at hel
        exact ⟨el, hel.1, rfl, by simpa using hel.2⟩
      · rintro ⟨el, hel, hpage, hhtml⟩
        exact ⟨el, List.mem_filter.mpr ⟨hel, by simpa using hhtml⟩, hpage⟩
    · unfold normalizePages
      rw [hels]
      simp [hne]
  · rintro (h | h) <;> simp [normalizePages, h]
  · intro s storeId fname meta emb pids fileId upsertOk hfind hzero
    exact upload_file_run_parse_empty s storeId fname meta pr emb pids fileId upsertOk hfind hzero

/-- C5 witness: a parse response with no elements and no content yields zero
pages, and ingestion fails with the parse-failure error, recording nothing. -/
theorem c5_witness :
    upload_file S0 "s1" "doc.pdf" true (some PRempty) embAll pidF "f9" true
      = (S0, Except.error ⟨500, "Document parsing failed"⟩) :=
  (c5_normalization PRempty).2.2 S0 "s1" "doc.pdf" Meta0 embAll pidF "f9" true
    (by decide) (by decide)

/-- C8: `query_vectors` never mutates the system state, in particular the
store registry is identical before and after the call, whether the call
succeeds or fails. -/
theorem c8_query_readonly (s : SysState) (storeId : String) (req : QueryRequest)
    (qvec : Option (List Int)) (searchResult : List Int → Nat → Option (List Hit)) :
    (query_vectors s storeId req qvec searchResult).1 = s ∧
    (query_vectors s storeId req qvec searchResult).1.reg = s.reg := by
  have h : (query_vectors s storeId req qvec searchResult).1 = s := by
    unfold query_vectors
    cases findA s.reg storeId with
    | none => rfl
    | some m =>
      cases qvec with
      | none => rfl
      | some v =>
        cases h : searchResult v req.top_k <;> simp only [h]
  exact ⟨h, by rw [h]⟩

/-- C9: update is not atomic on failure — with a new (truthy) name and a
distance different from the current one, if the collection recreation fails
the operation reports HTTP 500 (BackingStoreError), but the rename has
already been applied to the registry entry, while the recorded distance and
the backend contents are unchanged. -/
theorem c9_update_nonatomic (s : SysState) (storeId : String) (meta : StoreMeta)
    (newName : String) (d : Distance) (indexOk : Bool)
    (hfind : findA s.reg storeId = some meta) (hname : newName ≠ "")
    (hd : d ≠ meta.distance) :
    (update_vector_store s storeId ⟨some newName, some d⟩ false indexOk).2
        = Except.error ⟨500, "Failed to update vector store"⟩ ∧
    findA (update_vector_store s storeId ⟨some newName, some d⟩ false indexOk).1.reg storeId
        = some { meta with name := newName } ∧
    ({ meta with name := newName } : StoreMeta).distance = meta.distance ∧
    (update_vector_store s storeId ⟨some newName, some d⟩ false indexOk).1.backend
        = s.backend := by
  have hrun : update_vector_store s storeId ⟨some newName, some d⟩ false indexOk
      = ({ reg := setA s.reg storeId { meta with name := newName }, backend := s.backend },
         Except.error ⟨500, "Failed to update vector store"⟩) := by
    unfold update_vector_store
    rw [hfind]
    simp [truthyStr, hname, hd]
  rw [hrun]
  exact ⟨rfl, findA_setA_self _ _ _, rfl, rfl⟩

/-- C9 witness: the non-atomic failed update on the concrete state `S0`. -/
theorem c9_witness :
    (update_vector_store S0 "s1" ⟨some "nn", some Distance.dot⟩ false true).2
        = Except.error ⟨500, "Failed to update vector store"⟩ ∧
    findA (update_vector_store S0 "s1" ⟨some "nn", some Distance.dot⟩ false true).1.reg "s1"
        = some { Meta0 with name := "nn" } ∧
    ({ Meta0 with name := "nn" } : StoreMeta).distance = Meta0.distance ∧
    (update_vector_store S0 "s1" ⟨some "nn", some Distance.dot⟩ false true).1.backend
        = S0.backend :=
  c9_update_nonatomic S0 "s1" Meta0 "nn" Distance.dot true (by decide) (by decide) (by decide)

/-- C10: an update whose supplied distance equals the current one never
touches the backend (no collection recreation, stored vectors preserved),
leaves distance, dimension, collection and files unchanged, and applies only
the rename (when a truthy name is supplied). -/
theorem c10_same_distance (s : SysState) (storeId : String) (meta : StoreMeta)
    (newName : Option String) (recreateOk indexOk : Bool)
    (hfind : findA s.reg storeId = some meta) :
    (update_vector_store s storeId ⟨newName, some meta.distance⟩ recreateOk indexOk).1.backend
        = s.backend ∧
    (∃ m, findA (update_vector_store s storeId
            ⟨newName, some meta.distance⟩ recreateOk indexOk).1.reg storeId = some m
        ∧ m.distance = meta.distance ∧ m.dimension = meta.dimension
        ∧ m.collection = meta.collection ∧ m.files = meta.files
        ∧ m.name = (if truthyStr newName then newName.getD meta.name else meta.name)
        ∧ (update_vector_store s storeId ⟨newName, some meta.distance⟩ recreateOk indexOk).2
            = Except.ok ⟨storeId, m⟩) := by
  have hrun : update_vector_store s storeId ⟨newName, some meta.distance⟩ recreateOk indexOk
      = ({ reg := if truthyStr newName
              then setA s.reg storeId { meta with name := newName.getD meta.name }
              else s.reg,
           backend := s.backend },
         Except.ok ⟨storeId, if truthyStr newName
              then { meta with name := newName.getD meta.name } else meta⟩) := by
    unfold update_vector_store
    rw [hfind]
    cases hT : truthyStr newName with
    | true => simp [hT]
    | false => simp [hT]
  rw [hrun]
  cases hT : truthyStr newName with
  | true =>
    refine ⟨rfl, ⟨{ meta with name := newName.getD meta.name },
      ?_, rfl, rfl, rfl, rfl, ?_, ?_⟩⟩
    · simp only [hT, if_true, ite_true]
      exact findA_setA_self _ _ _
    · simp [hT]
    · simp [hT]
  | false =>
    refine ⟨rfl, ⟨meta, ?_, rfl, rfl, rfl, rfl, ?_, ?_⟩⟩
    · simp only [hT, Bool.false_eq_true, if_false, ite_false]
      exact hfind
    · simp [hT]
    · simp [hT]

/-- C10 witness: a same-distance rename on `S0` leaves the backend and the
recorded distance untouched. -/
theorem c10_witness :
    (update_vector_store S0 "s1" ⟨some "nn", some Meta0.distance⟩ true true).1.backend
        = S0.backend ∧
    (∃ m, findA (update_vector_store S0 "s1"
            ⟨some "nn", some Meta0.distance⟩ true true).1.reg "s1" = some m
        ∧ m.distance = Meta0.distance ∧ m.dimension = Meta0.dimension
        ∧ m.collection = Meta0.collection ∧ m.files = Meta0.files
        ∧ m.name = (if truthyStr (some "nn") then (some "nn").getD Meta0.name else Meta0.name)
        ∧ (update_vector_store S0 "s1" ⟨some "nn", some Meta0.distance⟩ true true).2
            = Except.ok ⟨"s1", m⟩) :=
  c10_same_distance S0 "s1" Meta0 (some "nn") true true (by decide)

end SolarVS
